import Mathlib

/-!
Verification of the `tdlchar` character-device driver (tdlchar.c).

The driver keeps three pieces of global state: a 256-byte message buffer
(`static char message[256]`), its stored length (`static short size_of_message`),
and an open counter (`static int numberOpens`), guarded by a single mutex
(`tdlchar_mutex`).  The four file operations `dev_open`, `dev_read`,
`dev_write` and `dev_release` are modelled below as pure functions on an
explicit device state.  Bytes are modelled as natural numbers below 256
(the unsigned value of the C `char`); the boundary copy to user space in
`dev_read` is modelled by a boolean `copyOk` parameter standing for whether
`copy_to_user` succeeds.
-/

/-- Buffer capacity: `static char message[256]`. -/
def N : Nat := 256

/-- `static char toupper(const char inChar)` from tdlchar.c: if the byte is in
the ASCII range 97 (character 'a') to 122 (character 'z') it is shifted down by
32 (the value of 'a' minus 'A'); every other byte value is returned unchanged.
On a platform with signed `char`, bytes 128..255 are negative and fall outside
the compared range, so they also pass through unchanged, which this unsigned
model reflects. -/
def toupper (inChar : Nat) : Nat :=
  if 97 ≤ inChar ∧ inChar ≤ 122 then inChar - 32 else inChar

/-- C `strlen` on the NUL-terminated `message` buffer: the number of bytes
before the first zero byte. -/
def strlen (msg : List Nat) : Nat :=
  (msg.takeWhile (fun b => b != 0)).length

/-- The global driver state: the mutex, the message buffer, its recorded
length, and the diagnostic open counter. -/
structure DevState where
  locked : Bool
  message : List Nat
  size_of_message : Nat
  numberOpens : Nat
deriving DecidableEq

/-- The state at module load: mutex free, `message[256] = {0}`,
`size_of_message` and `numberOpens` zero. -/
def initState : DevState :=
  { locked := false
    message := List.replicate N 0
    size_of_message := 0
    numberOpens := 0 }

/-- `dev_open`: `mutex_trylock`; when the mutex is already held it returns
`-EBUSY` (-16) and touches nothing; otherwise it takes the mutex, increments
`numberOpens` and returns 0. -/
def dev_open (s : DevState) : Int × DevState :=
  if s.locked then
    (-16, s)
  else
    (0, { s with locked := true, numberOpens := s.numberOpens + 1 })

/-- `dev_release`: unconditionally releases the mutex and returns 0; the
buffer and `size_of_message` are untouched. -/
def dev_release (s : DevState) : Int × DevState :=
  (0, { s with locked := false })

/-- `dev_read(filep, buffer, len, offset)`: calls
`copy_to_user(buffer, message, size_of_message)` — note that the requested
byte count is `size_of_message`, the caller capacity `len` is never consulted.
On success it returns `(size_of_message = 0)`, i.e. it zeroes
`size_of_message` and returns 0; on failure it returns `-EFAULT` (-14) and
changes nothing.  The middle component is the byte sequence handed to the
caller by the copy. -/
def dev_read (copyOk : Bool) (s : DevState) (len : Nat) : Int × List Nat × DevState :=
  if copyOk then
    (0, s.message.take s.size_of_message, { s with size_of_message := 0 })
  else
    (-14, [], s)

/-- The copy loop of `dev_write`: `for (i = 0; i < len; i++)
message[i] = toupper(buffer[i]);` — each buffer byte is upper-cased into the
corresponding message slot, the rest of the message is untouched. -/
def copyUpper : List Nat → List Nat → List Nat
  | msg, [] => msg
  | _ :: ms, b :: bs => toupper b :: copyUpper ms bs
  | [], _ :: _ => []

/-- `dev_write(filep, buffer, len, offset)`: runs the copy loop, stores the
terminator `message[len] = 0`, records `size_of_message = strlen(message)`,
and returns `len`.  There is no capacity check of any kind. -/
def dev_write (s : DevState) (buffer : List Nat) : Int × DevState :=
  let msg := (copyUpper s.message buffer).set buffer.length 0
  (Int.ofNat buffer.length, { s with message := msg, size_of_message := strlen msg })

/-- The `message` indices stored to by `dev_write` with payload length `len`:
the loop writes every `i < len` and the terminator writes index `len` itself. -/
def writeTouchesIndex (len i : Nat) : Bool :=
  decide (i < len) || decide (i = len)

/-- One driver file operation, as a step relation on the device state.  The
write step is restricted to payload lengths below the buffer capacity, where
the C code is well defined (at `len = N` the terminator store is out of
bounds, treated separately). -/
inductive Step : DevState → DevState → Prop
  | opn (s : DevState) : Step s (dev_open s).2
  | release (s : DevState) : Step s (dev_release s).2
  | read (s : DevState) (copyOk : Bool) (len : Nat) : Step s (dev_read copyOk s len).2.2
  | write (s : DevState) (buffer : List Nat) (h : buffer.length < N) :
      Step s (dev_write s buffer).2

/-- States reachable from the load-time state by driver operations. -/
inductive Reachable : DevState → Prop
  | init : Reachable initState
  | step {s t : DevState} : Reachable s → Step s t → Reachable t

/-- No byte of the stored message `buffer[0 .. size_of_message)` is an ASCII
lowercase letter. -/
def noLower (s : DevState) : Prop :=
  ∀ b ∈ s.message.take s.size_of_message, ¬ (97 ≤ b ∧ b ≤ 122)

/-- No byte anywhere in the message buffer is an ASCII lowercase letter. -/
def msgAllUpper (s : DevState) : Prop :=
  ∀ b ∈ s.message, ¬ (97 ≤ b ∧ b ≤ 122)

/-! ### Basic facts about the transform and the write loop -/

/-- The output of `toupper` is never an ASCII lowercase letter. -/
theorem toupper_not_lower (b : Nat) : ¬ (97 ≤ toupper b ∧ toupper b ≤ 122) := by
  unfold toupper
  split <;> omega

/-- `toupper` never maps a nonzero byte to zero. -/
theorem toupper_ne_zero (b : Nat) (h : b ≠ 0) : toupper b ≠ 0 := by
  unfold toupper
  split <;> omega

/-- The copy loop preserves the length of the message buffer. -/
theorem copyUpper_length (msg buffer : List Nat) :
    (copyUpper msg buffer).length = msg.length := by
  induction buffer generalizing msg with
  | nil => cases msg <;> rfl
  | cons b bs ih =>
    cases msg with
    | nil => rfl
    | cons m ms => simp [copyUpper, ih]

/-- When the payload fits in the buffer, the copy loop produces the
transformed payload followed by the untouched tail of the buffer. -/
theorem copyUpper_eq (msg buffer : List Nat) (h : buffer.length ≤ msg.length) :
    copyUpper msg buffer = buffer.map toupper ++ msg.drop buffer.length := by
  induction buffer generalizing msg with
  | nil => cases msg <;> simp [copyUpper]
  | cons b bs ih =>
    cases msg with
    | nil => simp at h
    | cons m ms =>
      simp only [copyUpper, List.map_cons, List.cons_append, List.length_cons,
        List.drop_succ_cons]
      rw [ih ms (by simpa using h)]

/-- Setting the element just past a front segment updates the head of the
back segment. -/
theorem set_append_of_len (x y : List Nat) (n : Nat) (hn : n = x.length) (v : Nat) :
    (x ++ y).set n v = x ++ y.set 0 v := by
  subst hn
  induction x with
  | nil => rfl
  | cons a xs ih =>
    simp only [List.cons_append, List.length_cons, List.set_cons_succ]
    rw [ih]

/-- Setting index 0 of a dropped suffix replaces the dropped head. -/
theorem set_zero_drop (msg : List Nat) (k : Nat) (h : k < msg.length) (v : Nat) :
    (msg.drop k).set 0 v = v :: msg.drop (k + 1) := by
  rw [List.drop_eq_getElem_cons h]
  rfl

/-- Characterisation of the message buffer after `dev_write` with an
in-bounds payload: the transformed payload, the terminator, and the untouched
tail of the previous buffer contents. -/
theorem write_message_eq (s : DevState) (buffer : List Nat)
    (hm : s.message.length = N) (h : buffer.length < N) :
    (dev_write s buffer).2.message
      = buffer.map toupper ++ 0 :: s.message.drop (buffer.length + 1) := by
  show (copyUpper s.message buffer).set buffer.length 0 = _
  rw [copyUpper_eq s.message buffer (by omega)]
  rw [set_append_of_len _ _ _ (List.length_map buffer toupper).symm]
  rw [set_zero_drop s.message buffer.length (by omega) 0]

/-- `dev_write` preserves the length of the message buffer. -/
theorem write_message_length (s : DevState) (buffer : List Nat) :
    (dev_write s buffer).2.message.length = s.message.length := by
  show ((copyUpper s.message buffer).set buffer.length 0).length = _
  rw [List.length_set, copyUpper_length]

/-- `strlen` of a zero-free front segment followed by a terminator is the
length of the front segment. -/
theorem strlen_append_zero (x r : List Nat) (hx : ∀ b ∈ x, b ≠ 0) :
    strlen (x ++ (0 :: r)) = x.length := by
  induction x with
  | nil => simp [strlen]
  | cons a xs ih =>
    have ha : (a != 0) = true := by simpa using hx a (List.mem_cons_self a xs)
    have ih2 := ih fun b hb => hx b (List.mem_cons_of_mem a hb)
    simp only [strlen, List.cons_append, List.takeWhile_cons, ha, if_pos,
      List.length_cons] at ih2 ⊢
    omega

/-- `strlen` never reads past the terminator: it is bounded by the length of
the front segment. -/
theorem strlen_append_zero_le (x r : List Nat) :
    strlen (x ++ (0 :: r)) ≤ x.length := by
  induction x with
  | nil => simp [strlen]
  | cons a xs ih =>
    simp only [strlen, List.cons_append, List.takeWhile_cons] at ih ⊢
    by_cases ha : (a != 0) = true
    · rw [if_pos ha]
      simp only [List.length_cons]
      omega
    · rw [if_neg ha]
      simp

/-- After an in-bounds write, the first `len` message bytes are the
transformed payload. -/
theorem write_take_eq (s : DevState) (buffer : List Nat)
    (hm : s.message.length = N) (h : buffer.length < N) :
    ((dev_write s buffer).2.message).take buffer.length = buffer.map toupper := by
  rw [write_message_eq s buffer hm h]
  exact List.take_left' (List.length_map buffer toupper)

/-- After an in-bounds write of a zero-free payload, `size_of_message` is the
payload length. -/
theorem write_size_eq (s : DevState) (buffer : List Nat)
    (hm : s.message.length = N) (h : buffer.length < N)
    (hz : ∀ b ∈ buffer, b ≠ 0) :
    (dev_write s buffer).2.size_of_message = buffer.length := by
  have hmsg : (dev_write s buffer).2.message
      = buffer.map toupper ++ 0 :: s.message.drop (buffer.length + 1) :=
    write_message_eq s buffer hm h
  show strlen ((copyUpper s.message buffer).set buffer.length 0) = buffer.length
  have hmsg' : (copyUpper s.message buffer).set buffer.length 0
      = buffer.map toupper ++ 0 :: s.message.drop (buffer.length + 1) := hmsg
  rw [hmsg', strlen_append_zero, List.length_map]
  intro b hb
  obtain ⟨a, ha, rfl⟩ := List.mem_map.mp hb
  exact toupper_ne_zero a (hz a ha)

/-! ### The reachability invariant -/

/-- A single driver operation preserves the buffer-shape invariant: the
message keeps its full capacity and stays free of lowercase bytes. -/
theorem step_inv {s t : DevState} (hst : Step s t)
    (h1 : s.message.length = N) (h2 : msgAllUpper s) :
    t.message.length = N ∧ msgAllUpper t := by
  cases hst with
  | opn =>
    have hm : (dev_open s).2.message = s.message := by
      unfold dev_open; split <;> rfl
    exact ⟨by rw [hm, h1], fun b hb => h2 b (by rwa [hm] at hb)⟩
  | release =>
    exact ⟨h1, fun b hb => h2 b hb⟩
  | read copyOk len =>
    have hm : (dev_read copyOk s len).2.2.message = s.message := by
      cases copyOk <;> rfl
    exact ⟨by rw [hm, h1], fun b hb => h2 b (by rwa [hm] at hb)⟩
  | write buffer hlen =>
    refine ⟨by rw [write_message_length, h1], ?_⟩
    intro b hb
    rw [write_message_eq s buffer h1 hlen] at hb
    rcases List.mem_append.mp hb with hmap | htail
    · obtain ⟨a, _, rfl⟩ := List.mem_map.mp hmap
      exact toupper_not_lower a
    · rcases List.mem_cons.mp htail with rfl | hdrop
      · omega
      · exact h2 b (List.mem_of_mem_drop hdrop)

/-- Every reachable state has a full-capacity message buffer none of whose
bytes is an ASCII lowercase letter. -/
theorem reachable_inv (s : DevState) (h : Reachable s) :
    s.message.length = N ∧ msgAllUpper s := by
  induction h with
  | init =>
    refine ⟨by simp [initState], ?_⟩
    intro b hb
    have hb0 : b = 0 := List.eq_of_mem_replicate (by simpa [initState] using hb)
    omega
  | step _ hstep ih =>
    exact step_inv hstep ih.1 ih.2

/-! ### The claims -/

/-- C1: in every state in which a session is already open (the mutex is
held), a further `dev_open` call fails with `-EBUSY` and returns the state
exactly as it was: buffer, `size_of_message`, `numberOpens` and the lock are
all unchanged. -/
theorem C1_open_busy_no_change (s : DevState) (h : s.locked = true) :
    dev_open s = (-16, s) := by
  simp [dev_open, h]

theorem C1_open_busy_no_change_witness :
    ({ locked := true, message := List.replicate N 0, size_of_message := 3,
       numberOpens := 1 } : DevState).locked = true ∧
    dev_open { locked := true, message := List.replicate N 0, size_of_message := 3,
               numberOpens := 1 }
      = (-16, { locked := true, message := List.replicate N 0, size_of_message := 3,
                numberOpens := 1 }) :=
  ⟨rfl, C1_open_busy_no_change _ rfl⟩

/-- C2: `toupper` maps each ASCII lowercase byte to its uppercase counterpart
by the fixed offset 32 and leaves every other byte value unchanged, and
`dev_write` applies it independently to each payload byte, in order: after a
write the first `len` message bytes are exactly the byte-wise image of the
payload under `toupper`. -/
theorem C2_transform_pure_bytewise (b : Nat) (hb : b < 256) (s : DevState)
    (buffer : List Nat) (hm : s.message.length = N) (hlen : buffer.length < N) :
    ((97 ≤ b ∧ b ≤ 122) → toupper b = b - 32 ∧ toupper b + 32 = b) ∧
    (¬ (97 ≤ b ∧ b ≤ 122) → toupper b = b) ∧
    ((dev_write s buffer).2.message).take buffer.length = buffer.map toupper := by
  refine ⟨?_, ?_, write_take_eq s buffer hm hlen⟩
  · intro h
    unfold toupper
    rw [if_pos h]
    omega
  · intro h
    unfold toupper
    rw [if_neg h]

theorem C2_transform_pure_bytewise_witness :
    (((97 : Nat) ≤ 122 ∧ (122 : Nat) ≤ 122) → toupper 122 = 122 - 32 ∧ toupper 122 + 32 = 122) ∧
    (¬ ((97 : Nat) ≤ 122 ∧ (122 : Nat) ≤ 122) → toupper 122 = 122) ∧
    ((dev_write initState [104, 105, 33]).2.message).take ([104, 105, 33] : List Nat).length
      = ([104, 105, 33] : List Nat).map toupper :=
  C2_transform_pure_bytewise 122 (by decide) initState [104, 105, 33]
    (by simp [initState]) (by decide)

/-- C3: evaluation of `dev_write` at a payload of exactly the buffer capacity
`N = 256`: the code performs no capacity check, returns the full length 256 as
a success value, and its terminator store touches `message` index 256, which
is outside the 256-byte buffer (indices 0..255) — an out-of-bounds write
rather than the `TOO_LARGE` failure the claim requires. -/
theorem C3_write_at_capacity_overruns :
    (dev_write initState (List.replicate N 97)).1 = Int.ofNat N ∧
    writeTouchesIndex (List.replicate N 97).length N = true ∧
    ¬ (N < N) := by
  refine ⟨?_, ?_, by omega⟩
  · rw [show (dev_write initState (List.replicate N 97)).1
        = Int.ofNat (List.replicate N 97).length from rfl]
    rw [List.length_replicate]
  · rw [List.length_replicate]
    decide

set_option maxRecDepth 8000 in
/-- C4 counterexample: in a fresh session, after writing "abc" (bytes
97, 98, 99), a successful read with capacity 256 does deliver "ABC"
(bytes 65, 66, 67) to the caller, but the return value of `dev_read` is 0,
not the copied count 3: the code returns `(size_of_message = 0)`. -/
theorem C4_counterexample_read_returns_zero :
    (dev_read true (dev_write (dev_open initState).2 [97, 98, 99]).2 256).2.1
      = [65, 66, 67] ∧
    (dev_read true (dev_write (dev_open initState).2 [97, 98, 99]).2 256).1 = 0 ∧
    ((0 : Int) ≠ 3) :=
  ⟨by decide, rfl, by decide⟩

set_option maxRecDepth 8000 in
/-- C4 amended: read is destructive but reports 0, not the copied count: in
an open session, after writing "abc", a read with sufficient capacity
delivers "ABC" and returns 0 (the code returns `size_of_message` immediately
after resetting it to 0), and a second immediate read delivers nothing and
returns 0. -/
theorem C4_read_destructive_returns_zero :
    (dev_read true (dev_write (dev_open initState).2 [97, 98, 99]).2 256).2.1
      = [65, 66, 67] ∧
    (dev_read true (dev_write (dev_open initState).2 [97, 98, 99]).2 256).1 = 0 ∧
    (dev_read true (dev_write (dev_open initState).2 [97, 98, 99]).2 256).2.2.size_of_message
      = 0 ∧
    (dev_read true
        (dev_read true (dev_write (dev_open initState).2 [97, 98, 99]).2 256).2.2 256).2.1
      = [] ∧
    (dev_read true
        (dev_read true (dev_write (dev_open initState).2 [97, 98, 99]).2 256).2.2 256).1
      = 0 :=
  ⟨by decide, rfl, by decide, by decide, rfl⟩

/-- C5: for every state, when the copy to the caller fails during read, the
operation returns `-EFAULT` (-14) and the device state is completely
unchanged: the stored message and `size_of_message` keep their values and
remain available for a retry. -/
theorem C5_read_fault_leaves_state (s : DevState) (len : Nat) :
    (dev_read false s len).1 = -14 ∧
    (dev_read false s len).2.2 = s ∧
    (dev_read false s len).2.2.message = s.message ∧
    (dev_read false s len).2.2.size_of_message = s.size_of_message :=
  ⟨rfl, rfl, rfl, rfl⟩

set_option maxRecDepth 8000 in
/-- C6: evaluation of the code at the failing input: with the three-byte
message "ABC" stored and a caller capacity of 1, `dev_read` hands 3 bytes to
the boundary copy — `copy_to_user` is called with count `size_of_message`
and the caller capacity `len` is never consulted, so the copy is not bounded
by the capacity as the claim requires. -/
theorem C6_read_ignores_capacity :
    (dev_read true (dev_write (dev_open initState).2 [97, 98, 99]).2 1).2.1.length = 3 ∧
    ¬ ((dev_read true (dev_write (dev_open initState).2 [97, 98, 99]).2 1).2.1.length ≤ 1) :=
  ⟨by decide, by decide⟩

set_option maxRecDepth 8000 in
/-- C7 counterexample: the single NUL byte is a payload of length 1 < N whose
write returns 1 but sets `size_of_message` to 0, not to the payload length:
the code records `strlen(message)`, which stops at the first zero byte. -/
theorem C7_counterexample_nul_payload :
    ([0] : List Nat).length < N ∧
    (dev_write initState [0]).1 = Int.ofNat ([0] : List Nat).length ∧
    (dev_write initState [0]).2.size_of_message ≠ ([0] : List Nat).length :=
  ⟨by decide, rfl, by decide⟩

/-- C7 amended: for every payload of length < N none of whose bytes is zero,
a write stores the transform of each payload byte into `buffer[0..length)`,
sets `size_of_message` to the payload length, and returns the payload
length.  (With a zero byte in the payload, `size_of_message` is instead the
distance to the first zero byte, since the code records `strlen(message)`.) -/
theorem C7_write_stores_transformed (s : DevState) (buffer : List Nat)
    (hm : s.message.length = N) (hlen : buffer.length < N)
    (hz : ∀ b ∈ buffer, b ≠ 0) :
    (dev_write s buffer).1 = Int.ofNat buffer.length ∧
    ((dev_write s buffer).2.message).take buffer.length = buffer.map toupper ∧
    (dev_write s buffer).2.size_of_message = buffer.length :=
  ⟨rfl, write_take_eq s buffer hm hlen, write_size_eq s buffer hm hlen hz⟩

theorem C7_write_stores_transformed_witness :
    (dev_write initState [104, 105]).1 = Int.ofNat ([104, 105] : List Nat).length ∧
    ((dev_write initState [104, 105]).2.message).take ([104, 105] : List Nat).length
      = ([104, 105] : List Nat).map toupper ∧
    (dev_write initState [104, 105]).2.size_of_message = ([104, 105] : List Nat).length :=
  C7_write_stores_transformed initState [104, 105] (by simp [initState]) (by decide)
    (by decide)

set_option maxRecDepth 8000 in
/-- C8 counterexample: writing "ab" and then the payload 120, 0, 121 (which
contains a NUL byte), a subsequent read delivers only the single byte 88
("X") — not the transformed second payload 88, 0, 89 and not its length 3 —
because `size_of_message` is recorded with `strlen`, which stops at the
embedded zero byte. -/
theorem C8_counterexample_nul_in_second :
    (dev_read true
        (dev_write (dev_write (dev_open initState).2 [97, 98]).2 [120, 0, 121]).2 256).2.1
      = [88] ∧
    ([88] : List Nat) ≠ ([120, 0, 121] : List Nat).map toupper ∧
    ([88] : List Nat).length ≠ ([120, 0, 121] : List Nat).length :=
  ⟨by decide, by decide, by decide⟩

/-- C8 amended: for every pair of consecutive writes with no intervening
read, where the second payload fits the buffer and contains no zero byte,
a subsequent read delivers exactly the transformed second payload and its
length — never a concatenation or remnant of the first payload, including
when the second payload is shorter than the first. -/
theorem C8_last_write_wins (s : DevState) (p q : List Nat) (cap : Nat)
    (hm : s.message.length = N) (hp : p.length < N) (hq : q.length < N)
    (hz : ∀ b ∈ q, b ≠ 0) :
    (dev_read true (dev_write (dev_write s p).2 q).2 cap).2.1 = q.map toupper ∧
    (dev_read true (dev_write (dev_write s p).2 q).2 cap).2.1.length = q.length := by
  have hm1 : (dev_write s p).2.message.length = N := by
    rw [write_message_length, hm]
  have htake := write_take_eq (dev_write s p).2 q hm1 hq
  have hsize := write_size_eq (dev_write s p).2 q hm1 hq hz
  have hdeliv : (dev_read true (dev_write (dev_write s p).2 q).2 cap).2.1
      = ((dev_write (dev_write s p).2 q).2.message).take
          ((dev_write (dev_write s p).2 q).2.size_of_message) := rfl
  rw [hdeliv, hsize, htake]
  exact ⟨rfl, by simp⟩

theorem C8_last_write_wins_witness :
    (dev_read true (dev_write (dev_write initState [97, 98, 99, 100]).2 [120, 121]).2 256).2.1
      = ([120, 121] : List Nat).map toupper ∧
    (dev_read true (dev_write (dev_write initState [97, 98, 99, 100]).2 [120, 121]).2 256).2.1.length
      = ([120, 121] : List Nat).length :=
  C8_last_write_wins initState [97, 98, 99, 100] [120, 121] 256 (by simp [initState])
    (by decide) (by decide) (by decide)

/-- C9: from any state with an open session, release followed by a fresh open
succeeds (returns 0), and neither release nor open modifies the message
buffer or `size_of_message`: an unread message survives the close/open
boundary — the gate release does not clear the buffer. -/
theorem C9_close_open_preserves_store (s : DevState) (h : s.locked = true) :
    (dev_release s).1 = 0 ∧
    (dev_release s).2.message = s.message ∧
    (dev_release s).2.size_of_message = s.size_of_message ∧
    (dev_open (dev_release s).2).1 = 0 ∧
    (dev_open (dev_release s).2).2.message = s.message ∧
    (dev_open (dev_release s).2).2.size_of_message = s.size_of_message := by
  refine ⟨rfl, rfl, rfl, ?_, ?_, ?_⟩ <;> simp [dev_open, dev_release]

/-- A state with an open session holding an unread two-byte message. -/
def releaseDemoState : DevState :=
  { locked := true
    message := 72 :: 73 :: List.replicate 254 0
    size_of_message := 2
    numberOpens := 1 }

theorem C9_close_open_preserves_store_witness :
    releaseDemoState.locked = true ∧
    ((dev_release releaseDemoState).1 = 0 ∧
     (dev_release releaseDemoState).2.message = releaseDemoState.message ∧
     (dev_release releaseDemoState).2.size_of_message = releaseDemoState.size_of_message ∧
     (dev_open (dev_release releaseDemoState).2).1 = 0 ∧
     (dev_open (dev_release releaseDemoState).2).2.message = releaseDemoState.message ∧
     (dev_open (dev_release releaseDemoState).2).2.size_of_message
       = releaseDemoState.size_of_message) :=
  ⟨rfl, C9_close_open_preserves_store releaseDemoState rfl⟩

/-- C10: after every sequence of driver operations from the load-time state,
no byte of the stored message `buffer[0..size_of_message)` is an ASCII
lowercase letter: every stored byte passed through `toupper`, and read, open
and release never write into the buffer. -/
theorem C10_stored_message_never_lowercase (s : DevState) (h : Reachable s) :
    noLower s :=
  fun b hb => (reachable_inv s h).2 b (List.mem_of_mem_take hb)

theorem C10_stored_message_never_lowercase_witness :
    Reachable ((dev_write (dev_open initState).2 [104, 101, 108, 108, 111]).2) ∧
    noLower ((dev_write (dev_open initState).2 [104, 101, 108, 108, 111]).2) :=
  ⟨Reachable.step (Reachable.step Reachable.init (Step.opn initState))
      (Step.write (dev_open initState).2 [104, 101, 108, 108, 111] (by decide)),
   C10_stored_message_never_lowercase _
     (Reachable.step (Reachable.step Reachable.init (Step.opn initState))
       (Step.write (dev_open initState).2 [104, 101, 108, 108, 111] (by decide)))⟩
